import Mathlib

/-!
Verification development for the Ciphey CLI layer (src/ciphey/ciphey.py).

The Python module is embedded shallowly: Python values flowing through the
program (str / bytes / other objects) become the inductive `PyVal`, Python
types become `PyType`, fallible operations return `Except` or `Option`
(`Except.error` models a raised exception, `Option.none` models a crash such
as an unpacking `ValueError` or `TypeError` on `None` arithmetic), and the
stdin text stream becomes an explicit state value threaded through `get_name`.
The search engine (`iface.AuSearch`) is not part of src; where a claim needs
it, it is modelled from the spec and marked as such in its doc comment.
-/

namespace Ciphey

/-- Python types that occur in this program: `str`, `bytes`, and a stand-in
for any other object type (modelled by `int`).  No proper subclass of `str`
or `bytes` ever reaches the format-coercion code in `main`, so on this
universe Python's `issubclass` coincides with type equality. -/
inductive PyType where
  | str
  | bytes
  | int
deriving DecidableEq, Repr

/-- Python values of those types.  Byte strings are lists of byte values
(naturals below 256). -/
inductive PyVal where
  | str (s : String)
  | bytes (b : List Nat)
  | int (n : Int)
deriving DecidableEq, Repr

/-- The Python builtin `type(v)`. -/
def typeOf : PyVal → PyType
  | PyVal.str _ => PyType.str
  | PyVal.bytes _ => PyType.bytes
  | PyVal.int _ => PyType.int

/-- Python's `issubclass(a, b)` restricted to the types above: with no proper
subclasses in play it is exactly type equality. -/
def issubclass (a b : PyType) : Bool :=
  a = b

/-- List concat-map, used to embed Python comprehensions and `.encode`. -/
def concatMap (f : α → List β) : List α → List β
  | [] => []
  | a :: as => f a ++ concatMap f as

/-- UTF-8 encoding of a single code point, as in Python's `str.encode("utf-8")`. -/
def utf8EncodeChar (c : Nat) : List Nat :=
  if c < 0x80 then [c]
  else if c < 0x800 then [0xC0 + c / 0x40, 0x80 + c % 0x40]
  else if c < 0x10000 then
    [0xE0 + c / 0x1000, 0x80 + (c / 0x40) % 0x40, 0x80 + c % 0x40]
  else
    [0xF0 + c / 0x40000, 0x80 + (c / 0x1000) % 0x40,
     0x80 + (c / 0x40) % 0x40, 0x80 + c % 0x40]

/-- Python's `str.encode("utf-8")`. -/
def utf8Encode (s : String) : List Nat :=
  concatMap (fun c => utf8EncodeChar c.toNat) s.data

/-- Whether a byte is a UTF-8 continuation byte. -/
def isCont (b : Nat) : Bool :=
  decide (0x80 ≤ b ∧ b < 0xC0)

/-- Strict UTF-8 decoding loop (Python's `bytes.decode("utf-8")`): rejects
stray continuation bytes, overlong forms, surrogates and out-of-range code
points.  Fuel is the number of remaining bytes; each step consumes at least
one byte, so fuel equal to the list length always suffices. -/
def utf8DecodeAux : Nat → List Nat → Option (List Char)
  | _, [] => some []
  | 0, _ :: _ => none
  | fuel + 1, b :: rest =>
    if b < 0x80 then
      (utf8DecodeAux fuel rest).map (fun cs => Char.ofNat b :: cs)
    else if b < 0xC2 then none
    else if b < 0xE0 then
      match rest with
      | b1 :: rest1 =>
        if isCont b1 then
          (utf8DecodeAux fuel rest1).map
            (fun cs => Char.ofNat ((b - 0xC0) * 0x40 + (b1 - 0x80)) :: cs)
        else none
      | [] => none
    else if b < 0xF0 then
      match rest with
      | b1 :: b2 :: rest2 =>
        if isCont b1 && isCont b2 then
          let c := (b - 0xE0) * 0x1000 + (b1 - 0x80) * 0x40 + (b2 - 0x80)
          if c < 0x800 ∨ (0xD800 ≤ c ∧ c < 0xE000) then none
          else (utf8DecodeAux fuel rest2).map (fun cs => Char.ofNat c :: cs)
        else none
      | _ => none
    else if b < 0xF5 then
      match rest with
      | b1 :: b2 :: b3 :: rest3 =>
        if isCont b1 && isCont b2 && isCont b3 then
          let c := (b - 0xF0) * 0x40000 + (b1 - 0x80) * 0x1000 +
                   (b2 - 0x80) * 0x40 + (b3 - 0x80)
          if c < 0x10000 ∨ 0x110000 ≤ c then none
          else (utf8DecodeAux fuel rest3).map (fun cs => Char.ofNat c :: cs)
        else none
      | _ => none
    else none

/-- Python's `bytes.decode("utf-8")`; `none` models `UnicodeDecodeError`. -/
def utf8Decode (bs : List Nat) : Option String :=
  (utf8DecodeAux bs.length bs).map (fun cs => String.mk cs)

/-- The `value` payload of an `iface.CrackResult`. -/
structure CrackResult where
  value : PyVal
deriving DecidableEq, Repr

/-- One level of a search path: the decoder name and its result
(`iface.SearchLevel`). -/
structure SearchLevel where
  name : String
  result : CrackResult
deriving DecidableEq, Repr

/-- The result handed back by the searcher (`iface.SearchResult`): the path
of decode steps; the final value is the last level's result value. -/
structure SearchResult where
  path : List SearchLevel
deriving DecidableEq, Repr

/-- Rendering of a `PyVal` for display. -/
def showPyVal : PyVal → String
  | PyVal.str s => s
  | PyVal.bytes b => String.intercalate " " (b.map toString)
  | PyVal.int n => toString n

/-- Modelled from the spec: `iface.pretty_search_results` is not under src;
section 6 of the spec says a verbosity at or above the threshold surfaces the
full path, so the pretty printer renders every level of the path together
with its value. -/
def pretty_search_results (res : SearchResult) : String :=
  String.intercalate "\n"
    (res.path.map (fun lvl => lvl.name ++ ": " ++ showPyVal lvl.result.value))

/-- The resolved configuration as `decrypt` and the tail of `main` consume
it: the instantiated searcher object (its `search` method), the verbosity
level, the configured format object, the optional spinner sink installed by
`set_spinner`, and the accumulated per-plugin parameters. -/
structure Config where
  searcher : PyVal → Option SearchResult
  verbosity : Int
  objsFormat : PyType
  spinner : Option Nat
  params : List (List Char × List Char × List Char)

/-- Embedding of `decrypt` (ciphey.py lines 17-25): run the configured
searcher; on `None` return the plain string `"Failed to crack"`; otherwise
return the bare final value (`res.path[-1].result.value`) when the verbosity
is negative, else the pretty-printed search result.  `Except.error` models a
raised exception (the negative index raises `IndexError` on an empty path). -/
def decrypt (config : Config) (ctext : PyVal) : Except String PyVal :=
  match config.searcher ctext with
  | none => Except.ok (PyVal.str "Failed to crack")
  | some res =>
    if config.verbosity < 0 then
      match res.path.getLast? with
      | some lvl => Except.ok lvl.result.value
      | none => Except.error "IndexError"
    else
      Except.ok (PyVal.str (pretty_search_results res))

/-- Python's `s.split(sep, 1)` on a string viewed as a list of characters:
split at the first occurrence of `sep`; `none` models the absence of `sep`,
in which case the two-element unpacking in `main` raises `ValueError`. -/
def splitOnce (sep : Char) : List Char → Option (List Char × List Char)
  | [] => none
  | c :: rest =>
    if c = sep then some ([], rest)
    else (splitOnce sep rest).map (fun pr => (c :: pr.1, pr.2))

/-- Embedding of the `--param` token parse in `main` (ciphey.py lines
184-186): `key, value = i.split("=", 1)` followed by
`parent, name = key.split(".", 1)`; `none` models the `ValueError` raised
when a separator is missing. -/
def parseParamToken (tok : List Char) :
    Option (List Char × List Char × List Char) :=
  match splitOnce '=' tok with
  | none => none
  | some (key, value) =>
    match splitOnce '.' key with
    | none => none
    | some (parent, nm) => some (parent, nm, value)

/-- The configuration before `complete_config` instantiates the plugin
objects: the pending format, the verbosity and the accumulated parameters. -/
structure RawConfig where
  format : PyType
  verbosity : Int
  params : List (List Char × List Char × List Char)

/-- Embedding of `Config.update_format("bytes")`: records the requested
format so that instantiation later uses it. -/
def update_format (rc : RawConfig) (f : PyType) : RawConfig :=
  { rc with format := f }

/-- Embedding of `Config.update_param(parent, name, value)`: merges one
parameter assignment into the configuration. -/
def update_param (rc : RawConfig) (parent nm v : List Char) : RawConfig :=
  { rc with params := rc.params ++ [(parent, nm, v)] }

/-- The `for i in params` loop of `main` (ciphey.py lines 184-187): each
token is split and handed to `update_param`; `none` models the uncaught
`ValueError` from a malformed token. -/
def applyParams (rc : RawConfig) : List (List Char) → Option RawConfig
  | [] => some rc
  | tok :: rest =>
    match parseParamToken tok with
    | none => none
    | some (p, nm, v) => applyParams (update_param rc p nm v) rest

/-- Embedding of the verbosity computation in `main` (ciphey.py lines
157-167).  `verbose` and `quiet` are the click option values, `none` meaning
the option was absent with a `None` default; `base` is the file-configured
`config.verbosity`.  The result is `none` when the Python code would raise a
`TypeError` on `None` arithmetic (verbose and quiet both absent); click's
`count=True` default of 0 for `--verbose` makes that branch unreachable in
the real program. -/
def computeVerbosity (base : Int) (verbose quiet : Option Int)
    (greppable : Bool) : Option Int :=
  let v0 : Option Int :=
    match verbose with
    | none =>
      match quiet with
      | some q => some (-q)
      | none => none
    | some v =>
      match quiet with
      | some q => some (v - q)
      | none => some v
  let v1 : Option Int :=
    if greppable then
      match v0 with
      | some x => some (x - 999)
      | none => none
    else v0
  match v1 with
  | some x => some (base + x)
  | none => none

/-- The command-line options of `main` that matter to the claims. -/
structure CliOpts where
  verbose : Option Int
  quiet : Option Int
  greppable : Bool
  bytesFlag : Bool
  param : List (List Char)

/-- Embedding of `config.complete_config()`: instantiates the plugin objects
from the raw configuration as it stands at that point; the searcher
implementation itself is an external plugin supplied by the registry. -/
def complete_config (rc : RawConfig)
    (searcherImpl : PyVal → Option SearchResult) : Config :=
  { searcher := searcherImpl
    verbosity := rc.verbosity
    objsFormat := rc.format
    spinner := none
    params := rc.params }

/-- Embedding of the configuration-building phase of `main` (ciphey.py lines
156-192), in source order: verbosity arithmetic, then `update_format` when
the `-b` flag is set (line 178, before objects are instantiated), then the
`--param` loop, then `complete_config`.  `none` models an uncaught
exception along the way. -/
def mainBuild (fileConfig : RawConfig) (opts : CliOpts)
    (searcherImpl : PyVal → Option SearchResult) : Option Config :=
  match computeVerbosity fileConfig.verbosity opts.verbose opts.quiet
      opts.greppable with
  | none => none
  | some verb =>
    let rc1 : RawConfig := { fileConfig with verbosity := verb }
    let rc2 : RawConfig :=
      if opts.bytesFlag then update_format rc1 PyType.bytes else rc1
    match applyParams rc2 opts.param with
    | none => none
    | some rc3 => some (complete_config rc3 searcherImpl)

/-- Embedding of the format-coercion block of `main` (ciphey.py lines
215-222): pass the text through when `issubclass(format, type(text))`;
decode UTF-8 when the format is `str` and the text is `bytes`; encode UTF-8
when the format is `bytes` and the text is `str`; otherwise raise
`TypeError`.  `Except.error` models the raised exception. -/
def coerce_format (fmt : PyType) (v : PyVal) : Except String PyVal :=
  if issubclass fmt (typeOf v) then Except.ok v
  else
    match fmt, v with
    | PyType.str, PyVal.bytes b =>
      match utf8Decode b with
      | some s => Except.ok (PyVal.str s)
      | none => Except.error "UnicodeDecodeError"
    | PyType.bytes, PyVal.str s => Except.ok (PyVal.bytes (utf8Encode s))
    | _, _ => Except.error "TypeError"

/-- Embedding of `config.set_spinner(status)`: installs the progress sink in
the configuration. -/
def set_spinner (c : Config) (sp : Nat) : Config :=
  { c with spinner := some sp }

/-- Embedding of the final phase of `main` (ciphey.py lines 227-233): when
the verbosity is nonzero run `decrypt` directly; when it is zero install the
spinner sink first and then run the same `decrypt` call.  Returns the
configuration as it stands at the `decrypt` call together with the result. -/
def finalPhase (c : Config) (text : PyVal) : Config × Except String PyVal :=
  if c.verbosity ≠ 0 then (c, decrypt c text)
  else
    let c2 := set_spinner c 0
    (c2, decrypt c2 text)

/-- The tail of `main` after the text is loaded: format coercion (lines
215-222) followed by the spinner branch and `decrypt` (lines 227-233).  An
error from the coercion propagates as the raised `TypeError` or
`UnicodeDecodeError`, before any search is attempted. -/
def runMain (c : Config) (text : PyVal) : Except String PyVal :=
  match coerce_format c.objsFormat text with
  | Except.error e => Except.error e
  | Except.ok t => (finalPhase c t).2

/-- A text stream such as stdin: reading returns everything remaining and
leaves the stream exhausted. -/
structure TextStream where
  content : List Char

/-- Python's `stream.read()`: returns the remaining content and exhausts the
stream. -/
def streamRead (s : TextStream) : List Char × TextStream :=
  (s.content, { content := [] })

/-- Python's `str.strip()`: removes leading and trailing whitespace. -/
def pyStrip (s : List Char) : List Char :=
  ((s.dropWhile Char.isWhitespace).reverse.dropWhile Char.isWhitespace).reverse

/-- Python truthiness of the click argument value: `None` and the empty
string are falsy. -/
def isFalsy : Option (List Char) → Bool
  | none => true
  | some s => s.isEmpty

/-- Embedding of `get_name` (ciphey.py lines 28-34): when the argument value
is falsy and stdin is not a tty, the first `read()` consumes the whole
stream and its stripped result is discarded; the returned value is the
stripped result of a second `read()` of the now-exhausted stream. -/
def get_name (value : Option (List Char)) (isatty : Bool)
    (stdin : TextStream) : Option (List Char) × TextStream :=
  if isFalsy value && !isatty then
    let r1 := streamRead stdin
    let discarded := pyStrip r1.1
    let r2 := streamRead r1.2
    let _ := discarded
    (some (pyStrip r2.1), r2.2)
  else (value, stdin)

/-- Modelled from the spec: a decode operation (Cracker) as the searcher
invokes it — applied to a value it yields zero or more named candidate
outputs (spec sections 4.2 and 4.4); the searcher code itself is in the
iface module, which is not under src. -/
def Cracker : Type := PyVal → List (String × PyVal)

/-- Modelled from the spec: a search node carries its value and the path of
decode steps that produced it (spec section 3, SearchNode). -/
structure SNode where
  value : PyVal
  path : List SearchLevel

/-- Modelled from the spec: expanding one node runs every configured Cracker
against its value, producing child nodes with extended paths (spec section
4.4, Expand). -/
def expandNode (crackers : List Cracker) (n : SNode) : List SNode :=
  concatMap
    (fun cr =>
      (cr n.value).map
        (fun c => { value := c.2, path := n.path ++ [⟨c.1, ⟨c.2⟩⟩] }))
    crackers

/-- Modelled from the spec: the searcher loop (spec section 4.4) — pop a
frontier node, expand it, accept a child the checker approves, otherwise
enqueue the children; the fuel is the configured bound on expansions, and
exhausting either the frontier or the bound yields the explicit absence
value (spec section 4.4, termination policy). -/
def searchLoop (crackers : List Cracker) (checker : PyVal → Bool) :
    Nat → List SNode → Option SearchResult
  | 0, _ => none
  | _ + 1, [] => none
  | fuel + 1, n :: front =>
    let children := expandNode crackers n
    match children.find? (fun ch => checker ch.value) with
    | some ch => some ⟨ch.path⟩
    | none => searchLoop crackers checker fuel (front ++ children)

/-- Modelled from the spec: a configured searcher — its Crackers, its
Checker, and the configured expansion bound (spec sections 4.4 and 5). -/
structure Searcher where
  crackers : List Cracker
  checker : PyVal → Bool
  maxNodes : Nat

/-- Modelled from the spec: the single search entry point taking the
ciphertext and returning either a result path or the explicit absence value
(spec sections 1 and 4.4). -/
def search (s : Searcher) (ctext : PyVal) : Option SearchResult :=
  searchLoop s.crackers s.checker s.maxNodes [{ value := ctext, path := [] }]

/-! Concrete objects used by the witness theorems. -/

/-- A searcher that finds nothing. -/
def noneSearcher : PyVal → Option SearchResult := fun _ => none

/-- A one-level search path. -/
def wLvl : SearchLevel := { name := "base64", result := { value := PyVal.str "hello" } }

/-- A one-step search result. -/
def wRes : SearchResult := { path := [wLvl] }

/-- A searcher that always returns `wRes`. -/
def someSearcher : PyVal → Option SearchResult := fun _ => some wRes

/-- A configuration whose searcher finds nothing, verbosity 0. -/
def cfgNone : Config :=
  { searcher := noneSearcher, verbosity := 0, objsFormat := PyType.str
    spinner := none, params := [] }

/-- A configuration whose searcher returns `wRes`, verbosity -1. -/
def cfgSome : Config :=
  { searcher := someSearcher, verbosity := -1, objsFormat := PyType.str
    spinner := none, params := [] }

/-- C1: for every configuration and ciphertext on which the configured
searcher's search returns the absent value, `decrypt` returns the plain
message string "Failed to crack" as a normal value — no exception is raised
and no stack trace surfaces. -/
theorem c1_decrypt_absent (c : Config) (ctext : PyVal)
    (h : c.searcher ctext = none) :
    decrypt c ctext = Except.ok (PyVal.str "Failed to crack") := by
  unfold decrypt
  rw [h]

/-- Witness for C1 at a concrete configuration and ciphertext. -/
theorem c1_witness :
    cfgNone.searcher (PyVal.str "abc") = none ∧
    decrypt cfgNone (PyVal.str "abc") =
      Except.ok (PyVal.str "Failed to crack") :=
  ⟨rfl, c1_decrypt_absent cfgNone (PyVal.str "abc") rfl⟩

/-- C2: when the search returns a result, `decrypt` returns the bare final
value `res.path[-1].result.value` exactly when the verbosity is negative,
and the pretty-printed full search result exactly when it is nonnegative. -/
theorem c2_decrypt_verbosity (c : Config) (ctext : PyVal)
    (res : SearchResult) (lvl : SearchLevel)
    (h : c.searcher ctext = some res)
    (hl : res.path.getLast? = some lvl) :
    decrypt c ctext =
      if c.verbosity < 0 then Except.ok lvl.result.value
      else Except.ok (PyVal.str (pretty_search_results res)) := by
  unfold decrypt
  rw [h]
  by_cases hv : c.verbosity < 0
  · simp [hv, hl]
  · simp [hv]

/-- Witness for C2 at a concrete configuration with a one-step result. -/
theorem c2_witness :
    decrypt cfgSome (PyVal.str "x") =
      if cfgSome.verbosity < 0 then Except.ok wLvl.result.value
      else Except.ok (PyVal.str (pretty_search_results wRes)) :=
  c2_decrypt_verbosity cfgSome (PyVal.str "x") wRes wLvl rfl rfl

/-- C6: the result of `decrypt` depends only on the searcher's answer on the
ciphertext and on the verbosity: two configurations agreeing on those (but
possibly differing in format, spinner or parameters) produce identical
output, so with a fixed pure search function two calls return the same
string or bytes. -/
theorem c6_decrypt_deterministic (c1 c2 : Config) (ctext : PyVal)
    (hs : c1.searcher ctext = c2.searcher ctext)
    (hv : c1.verbosity = c2.verbosity) :
    decrypt c1 ctext = decrypt c2 ctext := by
  unfold decrypt
  rw [hs, hv]

/-- Witness for C6: two configurations differing in format and parameters
but agreeing on the searcher output and verbosity. -/
theorem c6_witness :
    decrypt { cfgNone with
              objsFormat := PyType.bytes
              params := [([], [], [])] } (PyVal.str "x") =
      decrypt cfgNone (PyVal.str "x") :=
  c6_decrypt_deterministic
    { cfgNone with objsFormat := PyType.bytes, params := [([], [], [])] }
    cfgNone (PyVal.str "x") rfl rfl

/-- C8: the spinner sink is installed exactly when the final verbosity is
zero, and in both branches the same `decrypt` call computes the result, so
the presence of the sink does not change what is returned. -/
theorem c8_spinner (c : Config) (text : PyVal) (h : c.spinner = none) :
    ((finalPhase c text).1.spinner.isSome ↔ c.verbosity = 0) ∧
    (finalPhase c text).2 = decrypt c text := by
  by_cases hv : c.verbosity = 0
  · have hfp : finalPhase c text =
        (set_spinner c 0, decrypt (set_spinner c 0) text) := by
      unfold finalPhase
      simp [hv]
    rw [hfp]
    exact ⟨by simp [set_spinner, hv], rfl⟩
  · have hfp : finalPhase c text = (c, decrypt c text) := by
      unfold finalPhase
      simp [hv]
    rw [hfp]
    exact ⟨by simp [h, hv], rfl⟩

/-- Witness for C8 at a verbosity-zero configuration with no spinner. -/
theorem c8_witness :
    ((finalPhase cfgNone (PyVal.str "x")).1.spinner.isSome ↔
      cfgNone.verbosity = 0) ∧
    (finalPhase cfgNone (PyVal.str "x")).2 =
      decrypt cfgNone (PyVal.str "x") :=
  c8_spinner cfgNone (PyVal.str "x") rfl

/-- C9: when the argument value is falsy and stdin is not a tty, `get_name`
returns the empty string whatever the stdin content: the first read consumes
and discards the whole stream, and the returned value is the stripped second
read of the exhausted stream. -/
theorem c9_get_name_empty (value : Option (List Char)) (stdin : TextStream)
    (h : isFalsy value = true) :
    (get_name value false stdin).1 = some [] ∧
    (get_name value false stdin).2.content = [] := by
  constructor <;> simp [get_name, streamRead, pyStrip, h]

/-- Witness for C9: piped-in ciphertext is lost and the empty string comes
back. -/
theorem c9_witness :
    (get_name none false { content := "some piped ciphertext".data }).1 =
      some [] ∧
    (get_name none false { content := "some piped ciphertext".data
      }).2.content = [] :=
  c9_get_name_empty none { content := "some piped ciphertext".data } rfl

/-- C10: whenever at least one of the verbose and quiet options is present
(click's count default makes verbose always present in the real program),
the final verbosity is the file-configured base plus the verbose count,
minus the quiet count, minus 999 exactly when the greppable flag is set. -/
theorem c10_verbosity_formula (base : Int) (verbose quiet : Option Int)
    (g : Bool) (h : verbose.isSome ∨ quiet.isSome) :
    computeVerbosity base verbose quiet g =
      some (base + verbose.getD 0 - quiet.getD 0 -
        (if g then 999 else 0)) := by
  rcases verbose with _ | v <;> rcases quiet with _ | q <;> cases g <;>
    simp_all [computeVerbosity] <;> ring_nf

/-- Witness for C10: base 1, two -v, one -q, greppable set. -/
theorem c10_witness :
    computeVerbosity 1 (some 2) (some 1) true = some (1 + 2 - 1 - 999) :=
  c10_verbosity_formula 1 (some 2) (some 1) true (Or.inl rfl)

/-- Splitting at the first occurrence: when the separator does not occur in
the prefix, `splitOnce` returns exactly that prefix and the suffix. -/
theorem splitOnce_append (sep : Char) (a b : List Char) (h : sep ∉ a) :
    splitOnce sep (a ++ sep :: b) = some (a, b) := by
  induction a with
  | nil => simp [splitOnce]
  | cons x xs ih =>
    have hx : ¬(x = sep) := by
      intro e
      exact h (by simp [e])
    have hxs : sep ∉ xs := fun m => h (List.mem_cons_of_mem x m)
    simp [splitOnce, hx, ih hxs]

/-- An empty raw configuration used by witnesses. -/
def rc0 : RawConfig := { format := PyType.str, verbosity := 0, params := [] }

/-- C3: a --param token of the form `plugin.name=value` is split with the
`=` split applied first and both splits at the first occurrence, so the
parent is the part of the token before the first dot, the name is the part
between that dot and the first `=` (later dots kept intact), the value is
everything after the first `=` (later `=` and dots kept intact), and the
loop in `main` hands exactly that triple to `update_param`. -/
theorem c3_param_split (p n v : List Char) (rc : RawConfig)
    (h1 : ('.' : Char) ∉ p) (h2 : ('=' : Char) ∉ p)
    (h3 : ('=' : Char) ∉ n) :
    parseParamToken (p ++ '.' :: n ++ '=' :: v) = some (p, n, v) ∧
    applyParams rc [p ++ '.' :: n ++ '=' :: v] =
      some (update_param rc p n v) := by
  have hkey : ('=' : Char) ∉ p ++ '.' :: n := by
    intro hm
    rcases List.mem_append.mp hm with hp | hn
    · exact h2 hp
    · rcases List.mem_cons.mp hn with hdot | hn2
      · exact absurd hdot (by decide)
      · exact h3 hn2
  have he : splitOnce '=' (p ++ '.' :: n ++ '=' :: v) =
      some (p ++ '.' :: n, v) := by
    have hassoc : p ++ '.' :: n ++ '=' :: v =
        (p ++ '.' :: n) ++ '=' :: v := by simp
    rw [hassoc]
    exact splitOnce_append '=' (p ++ '.' :: n) v hkey
  have hd : splitOnce '.' (p ++ '.' :: n) = some (p, n) :=
    splitOnce_append '.' p n h1
  refine ⟨?_, ?_⟩
  · simp only [parseParamToken, he, hd]
  · simp only [applyParams, parseParamToken, he, hd]

/-- Witness for C3: the token `checker.sub.lang=a=b.c` keeps the dotted name
`sub.lang` and the value `a=b.c` intact. -/
theorem c3_witness :
    parseParamToken
      ("checker".data ++ '.' :: "sub.lang".data ++ '=' :: "a=b.c".data) =
      some ("checker".data, "sub.lang".data, "a=b.c".data) ∧
    applyParams rc0
      ["checker".data ++ '.' :: "sub.lang".data ++ '=' :: "a=b.c".data] =
      some (update_param rc0 "checker".data "sub.lang".data "a=b.c".data) :=
  c3_param_split "checker".data "sub.lang".data "a=b.c".data rc0
    (by decide) (by decide) (by decide)

/-- The parameter loop never changes the pending format: `update_param`
leaves the format field alone. -/
theorem applyParams_format (toks : List (List Char)) (rc rc2 : RawConfig)
    (h : applyParams rc toks = some rc2) : rc2.format = rc.format := by
  induction toks generalizing rc with
  | nil =>
    simp [applyParams] at h
    rw [← h]
  | cons t rest ih =>
    rcases hp : parseParamToken t with _ | ⟨p2, n2, v2⟩
    · simp [applyParams, hp] at h
    · simp only [applyParams, hp] at h
      have hfmt := ih (update_param rc p2 n2 v2) h
      rw [hfmt]
      rfl

/-- C4: the input text is coerced to the configured format before `decrypt`:
a text whose type already matches the format passes unchanged, bytes are
UTF-8 decoded when the format is str, a str is UTF-8 encoded when the format
is bytes, and the -b flag makes `update_format "bytes"` take effect before
`complete_config` instantiates the plugin objects, so the built
configuration's format object is bytes. -/
theorem c4_format_coercion :
    (∀ (fmt : PyType) (v : PyVal), typeOf v = fmt →
      coerce_format fmt v = Except.ok v) ∧
    (∀ (b : List Nat) (s : String), utf8Decode b = some s →
      coerce_format PyType.str (PyVal.bytes b) = Except.ok (PyVal.str s)) ∧
    (∀ (s : String),
      coerce_format PyType.bytes (PyVal.str s) =
        Except.ok (PyVal.bytes (utf8Encode s))) ∧
    (∀ (fc : RawConfig) (opts : CliOpts)
      (si : PyVal → Option SearchResult) (cfg : Config),
      opts.bytesFlag = true → mainBuild fc opts si = some cfg →
      cfg.objsFormat = PyType.bytes) := by
  refine ⟨?_, ?_, ?_, ?_⟩
  · intro fmt v h
    subst h
    simp [coerce_format, issubclass]
  · intro b s h
    simp [coerce_format, issubclass, typeOf, h]
  · intro s
    simp [coerce_format, issubclass, typeOf]
  · intro fc opts si cfg hb h
    rcases hcv : computeVerbosity fc.verbosity opts.verbose opts.quiet
        opts.greppable with _ | verb
    · simp [mainBuild, hcv] at h
    · rcases hap : applyParams
          (update_format { fc with verbosity := verb } PyType.bytes)
          opts.param with _ | rc3
      · simp [mainBuild, hcv, hb, hap] at h
      · simp [mainBuild, hcv, hb, hap] at h
        have hfmt := applyParams_format opts.param _ rc3 hap
        rw [← h]
        show rc3.format = PyType.bytes
        rw [hfmt]
        rfl

/-- Concrete options used by the C4 witness: the -b flag is set. -/
def opts0 : CliOpts :=
  { verbose := some 0, quiet := none, greppable := false
    bytesFlag := true, param := [] }

/-- Concrete file configuration for the C4 witness. -/
def fc0 : RawConfig := { format := PyType.str, verbosity := 0, params := [] }

/-- The configuration `mainBuild` yields for `fc0` and `opts0`. -/
def cfg0 : Config :=
  { searcher := noneSearcher, verbosity := 0 + 0
    objsFormat := PyType.bytes, spinner := none, params := [] }

/-- Witness for C4 at concrete formats, texts and options. -/
theorem c4_witness :
    coerce_format PyType.str (PyVal.str "a") = Except.ok (PyVal.str "a") ∧
    coerce_format PyType.str (PyVal.bytes [104, 105]) =
      Except.ok (PyVal.str "hi") ∧
    coerce_format PyType.bytes (PyVal.str "hi") =
      Except.ok (PyVal.bytes (utf8Encode "hi")) ∧
    cfg0.objsFormat = PyType.bytes :=
  ⟨c4_format_coercion.1 PyType.str (PyVal.str "a") rfl,
   c4_format_coercion.2.1 [104, 105] "hi" (by decide),
   c4_format_coercion.2.2.1 "hi",
   c4_format_coercion.2.2.2 fc0 opts0 noneSearcher cfg0 rfl rfl⟩

/-- C5: an input whose type neither matches the configured format nor is one
of the convertible str/bytes cases makes `main` raise `TypeError` during the
coercion, whatever searcher is configured — the failure happens before
`decrypt` is ever consulted. -/
theorem c5_mismatch_fails (c : Config) (s : PyVal → Option SearchResult)
    (text : PyVal) (h1 : typeOf text ≠ c.objsFormat)
    (h2 : ¬(c.objsFormat = PyType.str ∧ typeOf text = PyType.bytes))
    (h3 : ¬(c.objsFormat = PyType.bytes ∧ typeOf text = PyType.str)) :
    runMain { c with searcher := s } text = Except.error "TypeError" := by
  have hco : coerce_format c.objsFormat text = Except.error "TypeError" := by
    cases hf : c.objsFormat <;> cases text <;>
      simp_all [coerce_format, issubclass, typeOf]
  simp [runMain, hco]

/-- Witness for C5: an int input against a str format fails with TypeError
under an arbitrary concrete searcher. -/
theorem c5_witness :
    runMain { cfgNone with searcher := noneSearcher } (PyVal.int 5) =
      Except.error "TypeError" :=
  c5_mismatch_fails cfgNone noneSearcher (PyVal.int 5)
    (by decide) (by decide) (by decide)

/-- Concat-map of a function that is empty on every element is empty. -/
theorem concatMap_eq_nil (f : α → List β) :
    ∀ (L : List α), (∀ x ∈ L, f x = []) → concatMap f L = []
  | [], _ => rfl
  | a :: as, h => by
    have ha : f a = [] := h a (List.mem_cons_self a as)
    have has : ∀ x ∈ as, f x = [] := fun x hx => h x (List.mem_cons_of_mem a hx)
    simp [concatMap, ha, concatMap_eq_nil f as has]

/-- An exhausted frontier yields the explicit absence value at any fuel. -/
theorem searchLoop_nil (crackers : List Cracker) (checker : PyVal → Bool)
    (fuel : Nat) : searchLoop crackers checker fuel [] = none := by
  cases fuel <;> rfl

/-- C7 (spec-modelled searcher): on a ciphertext on which no configured
Cracker makes progress, the search entry point returns the explicit absence
value; `searchLoop` recurses on the configured expansion bound, so the
search is total and finishes within that bound rather than hanging. -/
theorem c7_no_progress_no_solution (s : Searcher) (ctext : PyVal)
    (h : ∀ cr ∈ s.crackers, cr ctext = []) :
    search s ctext = none := by
  unfold search
  cases hm : s.maxNodes with
  | zero => rfl
  | succ fuel =>
    have hexp : expandNode s.crackers { value := ctext, path := [] } = [] := by
      unfold expandNode
      apply concatMap_eq_nil
      intro cr hcr
      simp [h cr hcr]
    simp [searchLoop, hexp, searchLoop_nil]

/-- A searcher whose single Cracker never produces a child. -/
def wSearcher : Searcher :=
  { crackers := [fun _ => []], checker := fun _ => false, maxNodes := 5 }

/-- Witness for C7 on concrete random-looking bytes. -/
theorem c7_witness : search wSearcher (PyVal.bytes [1, 2, 3]) = none :=
  c7_no_progress_no_solution wSearcher (PyVal.bytes [1, 2, 3]) (by
    intro cr hcr
    simp [wSearcher] at hcr
    subst hcr
    rfl)

end Ciphey
